import Mathlib

/-
Verification of the RazorPayMandate eMandate/webhook core.

Shallow embedding of the Python source:
 - `app/models/models.py`       : record types and status enums
 - `app/services/database_service.py` : persistence operations (each `db.commit()`
   is one transactional unit; commits are modelled as updates of an `AppState`)
 - `app/tasks/webhook_tasks.py` : webhook apply task and its event handlers
 - `app/tasks/emandate_tasks.py`: authorization / recurring-payment / validation tasks
 - `app/api/v1/endpoints/webhooks.py` and `.../emandate.py` : the two endpoints
 - `app/utils/helpers.py`       : paise/rupee conversion (Python binary64 floats
   are modelled exactly as dyadic rationals with round-to-nearest-even)

Machine-level conventions: ids are `Nat`, monetary values are `ℚ` (the DB columns
are `Numeric(10,2)`, SQLAlchemy `Decimal`s; exact rationals are faithful), JSON
payload fields that may be absent are `Option`.
-/

namespace RPM

/-- Mandate lifecycle states, from `MandateStatus` in `app/models/models.py`. -/
inductive MandateStatus where
  | created
  | authorized
  | confirmed
  | paused
  | cancelled
  | expired
deriving DecidableEq

/-- Payment states, from `PaymentStatus` in `app/models/models.py`. -/
inductive PaymentStatus where
  | created
  | authorized
  | captured
  | refunded
  | failed
deriving DecidableEq

/-- Payment transaction kinds, from `TransactionType` in `app/models/models.py`. -/
inductive TransactionType where
  | authorization
  | recurring_payment
  | refund
deriving DecidableEq

/-- A `mandates` row (the columns the core logic reads or writes). -/
structure Mandate where
  id : Nat
  razorpay_mandate_id : Option String
  customer_id : Nat
  amount : ℚ
  currency : String
  status : MandateStatus
  frequency : Option String
deriving DecidableEq

/-- A `payments` row (the columns the core logic reads or writes). -/
structure Payment where
  id : Nat
  razorpay_payment_id : Option String
  razorpay_order_id : Option String
  customer_id : Nat
  mandate_id : Option Nat
  amount : ℚ
  currency : String
  status : PaymentStatus
  transaction_type : TransactionType
  fee : Option ℚ
  tax : Option ℚ
  error_code : Option String
  error_description : Option String
deriving DecidableEq

/-- An `orders` row (the columns the core logic reads or writes). -/
structure Order where
  id : Nat
  razorpay_order_id : Option String
  customer_id : Option Nat
  amount : ℚ
  currency : String
  receipt : Option String
  status : Option String
deriving DecidableEq

/-- The parsed `entity` object of a webhook payload: exactly the keys the
handlers in `app/tasks/webhook_tasks.py` read via `.get`. An absent key is
`none`. Integer `fee`/`tax` are paise values. -/
structure Entity where
  id : Option String
  fee : Option Int
  tax : Option Int
  error_code : Option String
  error_description : Option String
deriving DecidableEq

/-- The empty dict that `payload.get` substitutes for a missing `entity`. -/
def Entity.empty : Entity :=
  ⟨none, none, none, none, none⟩

/-- A parsed webhook payload: the top-level keys read by
`handle_razorpay_webhook` and the task dispatcher. -/
structure WebhookPayload where
  event : Option String
  account_id : Option String
  entity : Option Entity
  created_at : Option Int
deriving DecidableEq

/-- A `webhook_events` row. The source stores the raw JSON text and re-parses
it in the task; since `json.loads` inverts `json.dumps` on these documents, the
row holds the structured payload directly. -/
structure WebhookEvent where
  id : Nat
  event_id : String
  event_type : String
  payload : WebhookPayload
  processed : Bool
  processing_error : Option String
deriving DecidableEq

/-- The persistence store: one list per table. Every `db.commit()` in the
source corresponds to producing an updated `AppState`. -/
structure AppState where
  mandates : List Mandate
  payments : List Payment
  orders : List Order
  webhooks : List WebhookEvent
deriving DecidableEq

/-- The empty database. -/
def AppState.empty : AppState :=
  ⟨[], [], [], []⟩

/-- `db.query(Mandate).filter(Mandate.id == mandate_id).first()`
(`MandateService.get_mandate`). -/
def AppState.findMandate (s : AppState) (mid : Nat) : Option Mandate :=
  s.mandates.find? (fun m => m.id == mid)

/-- `db.query(Payment).filter(Payment.razorpay_payment_id == pid).first()`.
A SQL equality comparison never matches a NULL column, hence `some pid`. -/
def AppState.findPaymentByRzpId (s : AppState) (pid : String) : Option Payment :=
  s.payments.find? (fun p => p.razorpay_payment_id == some pid)

/-- `db.query(Order).filter(Order.razorpay_order_id == oid).first()`. -/
def AppState.findOrderByRzpId (s : AppState) (oid : String) : Option Order :=
  s.orders.find? (fun o => o.razorpay_order_id == some oid)

/-- `db.query(WebhookEvent).filter(WebhookEvent.id == webhook_id).first()`. -/
def AppState.findWebhook (s : AppState) (wid : Nat) : Option WebhookEvent :=
  s.webhooks.find? (fun w => w.id == wid)

/-- Update (in place, ORM-style) the mandate row with the given id. -/
def AppState.updateMandate (s : AppState) (mid : Nat) (f : Mandate → Mandate) :
    AppState :=
  { s with mandates := s.mandates.map (fun m => if m.id == mid then f m else m) }

/-- Update the payment row with the given id. -/
def AppState.updatePayment (s : AppState) (pid : Nat) (f : Payment → Payment) :
    AppState :=
  { s with payments := s.payments.map (fun p => if p.id == pid then f p else p) }

/-- Update the order row with the given id. -/
def AppState.updateOrder (s : AppState) (oid : Nat) (f : Order → Order) :
    AppState :=
  { s with orders := s.orders.map (fun o => if o.id == oid then f o else o) }

/-- Update the webhook-event row with the given id. -/
def AppState.updateWebhook (s : AppState) (wid : Nat) (f : WebhookEvent → WebhookEvent) :
    AppState :=
  { s with webhooks := s.webhooks.map (fun w => if w.id == wid then f w else w) }

/-- Autoincrement primary key for a fresh webhook row. -/
def AppState.nextWebhookId (s : AppState) : Nat :=
  (s.webhooks.map (fun w => w.id)).foldr max 0 + 1

/-- Autoincrement primary key for a fresh payment row. -/
def AppState.nextPaymentId (s : AppState) : Nat :=
  (s.payments.map (fun p => p.id)).foldr max 0 + 1

/-- Autoincrement primary key for a fresh order row. -/
def AppState.nextOrderId (s : AppState) : Nat :=
  (s.orders.map (fun o => o.id)).foldr max 0 + 1

/-- `WebhookService.mark_webhook_processed(webhook_id, error=None)`
(`app/services/database_service.py`, lines 257-265): looks the row up by id;
when found it sets `processed = True` and `processing_error = error`
unconditionally — also on the error path — commits and returns `True`;
otherwise returns `False` without touching the store. -/
def mark_webhook_processed (s : AppState) (wid : Nat) (error : Option String) :
    AppState × Bool :=
  match s.findWebhook wid with
  | none => (s, false)
  | some _ =>
      (s.updateWebhook wid
        (fun w => { w with processed := true, processing_error := error }), true)

/-- `process_payment_authorized` (`app/tasks/webhook_tasks.py`, lines 75-91):
read `entity.id` (Python truthiness: `None` and `""` both skip), find the
payment by gateway id, set its status to AUTHORIZED, commit. -/
def process_payment_authorized (s : AppState) (payload : WebhookPayload) :
    AppState :=
  match (payload.entity.getD Entity.empty).id with
  | none => s
  | some pid =>
      if pid = "" then s
      else
        match s.findPaymentByRzpId pid with
        | none => s
        | some p =>
            s.updatePayment p.id (fun q => { q with status := PaymentStatus.authorized })

/-- `process_payment_captured` (`app/tasks/webhook_tasks.py`, lines 94-112):
set status CAPTURED and record `fee = entity.get("fee", 0) / 100` and
`tax = entity.get("tax", 0) / 100` (paise divided by 100; the Python float
division is modelled as the exact rational — the sub-picorupee float error is
irrelevant to every claim, and the `Numeric(10,2)` column quantizes anyway). -/
def process_payment_captured (s : AppState) (payload : WebhookPayload) :
    AppState :=
  let ent := payload.entity.getD Entity.empty
  match ent.id with
  | none => s
  | some pid =>
      if pid = "" then s
      else
        match s.findPaymentByRzpId pid with
        | none => s
        | some p =>
            s.updatePayment p.id (fun q =>
              { q with status := PaymentStatus.captured,
                       fee := some (Rat.divInt (ent.fee.getD 0) 100),
                       tax := some (Rat.divInt (ent.tax.getD 0) 100) })

/-- `process_payment_failed` (`app/tasks/webhook_tasks.py`, lines 115-133). -/
def process_payment_failed (s : AppState) (payload : WebhookPayload) :
    AppState :=
  let ent := payload.entity.getD Entity.empty
  match ent.id with
  | none => s
  | some pid =>
      if pid = "" then s
      else
        match s.findPaymentByRzpId pid with
        | none => s
        | some p =>
            s.updatePayment p.id (fun q =>
              { q with status := PaymentStatus.failed,
                       error_code := ent.error_code,
                       error_description := ent.error_description })

/-- `process_order_paid` (`app/tasks/webhook_tasks.py`, lines 136-152). -/
def process_order_paid (s : AppState) (payload : WebhookPayload) : AppState :=
  match (payload.entity.getD Entity.empty).id with
  | none => s
  | some oid =>
      if oid = "" then s
      else
        match s.findOrderByRzpId oid with
        | none => s
        | some o =>
            s.updateOrder o.id (fun q => { q with status := some "paid" })

/-- The event-type dispatch inside `process_webhook_event`
(`app/tasks/webhook_tasks.py`, lines 42-51); unknown types are only logged. -/
def applyWebhookEvent (s : AppState) (event_type : String)
    (payload : WebhookPayload) : AppState :=
  if event_type = "payment.authorized" then process_payment_authorized s payload
  else if event_type = "payment.captured" then process_payment_captured s payload
  else if event_type = "payment.failed" then process_payment_failed s payload
  else if event_type = "order.paid" then process_order_paid s payload
  else s

/-- Result of one execution of the `process_webhook_event` task. -/
inductive WebhookTaskResult where
  | alreadyProcessed
  | processedOk (event_type : String)
  | retryRaised (err : String)
deriving DecidableEq

/-- One execution of the `process_webhook_event` Celery task
(`app/tasks/webhook_tasks.py`, lines 19-72): look the row up (missing row
raises `ValueError("Webhook event not found")`, whose handler records the error
and re-raises via `self.retry`); short-circuit when `processed` is already
true; otherwise dispatch on the event type and finally call
`mark_webhook_processed(webhook_id)` with no error. -/
def process_webhook_event (s : AppState) (wid : Nat) :
    AppState × WebhookTaskResult :=
  match s.findWebhook wid with
  | none =>
      ((mark_webhook_processed s wid (some "Webhook event not found")).1,
        WebhookTaskResult.retryRaised "Webhook event not found")
  | some w =>
      if w.processed then (s, WebhookTaskResult.alreadyProcessed)
      else
        let s1 := applyWebhookEvent s w.event_type w.payload
        let s2 := (mark_webhook_processed s1 wid none).1
        (s2, WebhookTaskResult.processedOk w.event_type)

/-- The `except Exception` branch of `process_webhook_event`
(`app/tasks/webhook_tasks.py`, lines 60-69): whatever exception `e` the try
block raised, the handler runs `mark_webhook_processed(webhook_id, str(e))` —
which sets `processed = True` as well as the error — and then re-raises through
`self.retry(exc=e)`. -/
def process_webhook_event_on_exception (s : AppState) (wid : Nat)
    (err : String) : AppState :=
  (mark_webhook_processed s wid (some err)).1

/-- Response of the webhook endpoint. `accepted` carries the derived event id
and the id of the stored row, for which a `process_webhook_event` task has been
enqueued; the other constructors are the error envelopes. -/
inductive WebhookResponse where
  | unauthorized
  | badRequest (msg : String)
  | serverError (msg : String)
  | accepted (event_id : String) (webhook_id : Nat)
deriving DecidableEq

/-- HTTP status code of each webhook-endpoint response. -/
def WebhookResponse.http_status : WebhookResponse → Nat
  | WebhookResponse.unauthorized => 401
  | WebhookResponse.badRequest _ => 400
  | WebhookResponse.serverError _ => 500
  | WebhookResponse.accepted _ _ => 200

/-- The dedup key derived by `handle_razorpay_webhook`
(`app/api/v1/endpoints/webhooks.py`, line 55):
`payload.get("entity", dict()).get("id", "unknown_" + created_at)` — `dict.get`
falls back only when the key is absent. -/
def derive_event_id (payload : WebhookPayload) : String :=
  match (payload.entity.getD Entity.empty).id with
  | some pid => pid
  | none =>
      "unknown_" ++ (match payload.created_at with
                     | some t => toString t
                     | none => "")

/-- `handle_razorpay_webhook` (`app/api/v1/endpoints/webhooks.py`,
lines 17-88). `sig_ok` is the outcome of the HMAC comparison
`validate_webhook_signature` on the raw body (the digest itself is outside the
model); `payload` is the JSON-parsed body. After signature and structural
validation the handler derives the event id and calls `create_webhook_event` —
there is no lookup of an existing row: `webhook_events.event_id` is a UNIQUE
column, so committing a duplicate raises `IntegrityError`, which
`create_webhook_event` rolls back and re-raises and the endpoint's generic
`except Exception` turns into a 500 envelope. On success a fresh unprocessed
row is inserted and a `process_webhook_event` task is enqueued for it. -/
def handle_razorpay_webhook (s : AppState) (payload : WebhookPayload)
    (sig_ok : Bool) : AppState × WebhookResponse :=
  if !sig_ok then (s, WebhookResponse.unauthorized)
  else if !(payload.event.isSome && payload.account_id.isSome
            && payload.entity.isSome) then
    (s, WebhookResponse.badRequest "Missing required webhook fields")
  else
    let eid := derive_event_id payload
    if s.webhooks.any (fun w => w.event_id == eid) then
      (s, WebhookResponse.serverError "Failed to process webhook")
    else
      let wid := s.nextWebhookId
      let row : WebhookEvent :=
        { id := wid, event_id := eid, event_type := payload.event.getD "",
          payload := payload, processed := false, processing_error := none }
      ({ s with webhooks := s.webhooks ++ [row] },
        WebhookResponse.accepted eid wid)

/-- Outcome of one attempt of a Celery task body: it either returns or raises
(`msg` is `str(e)` of the exception fed to `self.retry`). -/
inductive AttemptOutcome where
  | success
  | failure (msg : String)
deriving DecidableEq

/-- Terminal status of a Celery task after the retry policy is exhausted. -/
inductive FinalStatus where
  | succeeded
  | permanently_failed (msg : String)
deriving DecidableEq

/-- `retry_kwargs` of the task decorators in `app/tasks/emandate_tasks.py` and
`app/tasks/webhook_tasks.py`: at most 3 retries after the initial attempt. -/
def celery_max_retries : Nat := 3

/-- `retry_kwargs` countdown: the delay scheduled between attempts. -/
def celery_retry_countdown : Nat := 60

/-- Celery retry semantics for a body whose `except Exception` branch ends in
`raise self.retry(exc=e)`: run the body; on success stop; on failure re-run
while retries remain, else the task is marked permanently failed. Returns the
final store, the terminal status, and the number of attempts executed. -/
def celery_run (step : AppState → AppState × AttemptOutcome) :
    AppState → Nat → AppState × FinalStatus × Nat
  | s, 0 =>
      match step s with
      | (s1, AttemptOutcome.success) => (s1, FinalStatus.succeeded, 1)
      | (s1, AttemptOutcome.failure m) => (s1, FinalStatus.permanently_failed m, 1)
  | s, r + 1 =>
      match step s with
      | (s1, AttemptOutcome.success) => (s1, FinalStatus.succeeded, 1)
      | (s1, AttemptOutcome.failure _) =>
          let (s2, st, n) := celery_run step s1 r
          (s2, st, n + 1)

/-- A task execution under the configured policy (initial attempt plus up to
`celery_max_retries` retries). -/
def celery_execute (step : AppState → AppState × AttemptOutcome)
    (s : AppState) : AppState × FinalStatus × Nat :=
  celery_run step s celery_max_retries

/-- The order-creation argument dict built by the callers of
`PaymentService.create_order`. -/
structure OrderData where
  amount : ℚ
  currency : String
  receipt : Option String
  customer_id : Option Nat
deriving DecidableEq

/-- `PaymentService.create_order` (`app/services/database_service.py`,
lines 159-193), happy path: the mock gateway client returns an order document
with a fresh `order_mock_N` id and status `"created"`
(`MockRazorpayClient.create_order`), and the service inserts the row and
commits — its own transaction, independent of the caller's later commits. -/
def create_order_db (s : AppState) (od : OrderData) : AppState × Order :=
  let oid := s.nextOrderId
  let row : Order :=
    { id := oid,
      razorpay_order_id := some ("order_mock_" ++ toString (s.orders.length + 1)),
      customer_id := od.customer_id, amount := od.amount,
      currency := od.currency, receipt := od.receipt,
      status := some "created" }
  ({ s with orders := s.orders ++ [row] }, row)

/-- Injection points for the two `db.commit()` boundaries of
`process_emandate_authorization`: in Python either commit may raise (gateway or
database error); the surrounding `except Exception` then retries the task. -/
structure CommitEnv where
  order_commit_ok : Bool
  mandate_commit_ok : Bool
deriving DecidableEq

/-- One attempt of `process_emandate_authorization`
(`app/tasks/emandate_tasks.py`, lines 20-63): look the mandate up — a missing
mandate raises `ValueError("Mandate not found")`, and the uniform
`except Exception: raise self.retry(exc=e)` treats it like any other failure —
then `create_order` (which commits the Order in its own transaction), then set
the mandate to AUTHORIZED with its mock gateway id and commit. A failure of the
second commit leaves the already-committed Order in place. -/
def process_emandate_authorization_body (env : CommitEnv) (mandate_id : Nat)
    (od : OrderData) (s : AppState) : AppState × AttemptOutcome :=
  match s.findMandate mandate_id with
  | none => (s, AttemptOutcome.failure "Mandate not found")
  | some _ =>
      if !env.order_commit_ok then
        (s, AttemptOutcome.failure "order commit failed")
      else
        let (s1, _) := create_order_db s od
        if !env.mandate_commit_ok then
          (s1, AttemptOutcome.failure "mandate commit failed")
        else
          (s1.updateMandate mandate_id (fun m =>
              { m with status := MandateStatus.authorized,
                       razorpay_mandate_id :=
                         some ("mandate_mock_" ++ toString mandate_id) }),
            AttemptOutcome.success)

/-- The `payment_data` dict passed to `process_recurring_payment`. -/
structure PaymentData where
  amount : ℚ
  currency : Option String
  description : Option String
  receipt : Option String
deriving DecidableEq

/-- One attempt of `process_recurring_payment`
(`app/tasks/emandate_tasks.py`, lines 66-132), commits succeeding: look the
mandate up (`ValueError("Mandate not found")`), require
`status == CONFIRMED` (`ValueError("Mandate is not confirmed")` otherwise —
note: CONFIRMED only, AUTHORIZED is rejected here), create the backing Order,
create the Payment row, then simulate capture: assign `pay_mock_<id>` and the
order's gateway id and set the status to CAPTURED. No ceiling check happens in
the task. -/
def process_recurring_payment_body (mandate_id : Nat) (pd : PaymentData)
    (s : AppState) : AppState × AttemptOutcome :=
  match s.findMandate mandate_id with
  | none => (s, AttemptOutcome.failure "Mandate not found")
  | some m =>
      if m.status ≠ MandateStatus.confirmed then
        (s, AttemptOutcome.failure "Mandate is not confirmed")
      else
        let od : OrderData :=
          { amount := pd.amount, currency := pd.currency.getD "INR",
            receipt := pd.receipt, customer_id := some m.customer_id }
        let (s1, o) := create_order_db s od
        let pid := s1.nextPaymentId
        let row : Payment :=
          { id := pid,
            razorpay_payment_id := some ("pay_mock_" ++ toString pid),
            razorpay_order_id := o.razorpay_order_id,
            customer_id := m.customer_id, mandate_id := some mandate_id,
            amount := pd.amount, currency := pd.currency.getD "INR",
            status := PaymentStatus.captured,
            transaction_type := TransactionType.recurring_payment,
            fee := none, tax := none,
            error_code := none, error_description := none }
        ({ s1 with payments := s1.payments ++ [row] }, AttemptOutcome.success)

/-- One attempt of `validate_mandate_status`
(`app/tasks/emandate_tasks.py`, lines 135-168): look the mandate up; when
`razorpay_mandate_id` is set, assign `status = CONFIRMED` and commit — with no
check of the current status whatsoever. -/
def validate_mandate_status_body (mandate_id : Nat) (s : AppState) :
    AppState × AttemptOutcome :=
  match s.findMandate mandate_id with
  | none => (s, AttemptOutcome.failure "Mandate not found")
  | some m =>
      if m.razorpay_mandate_id.isSome then
        (s.updateMandate mandate_id
           (fun x => { x with status := MandateStatus.confirmed }),
          AttemptOutcome.success)
      else (s, AttemptOutcome.success)

/-- Response of the recurring-payment endpoint. `accepted` means a
`process_recurring_payment` task has been enqueued. -/
inductive ApiResult where
  | notFound (msg : String)
  | badRequest (msg : String)
  | accepted (mandate_id : Nat) (amount : ℚ)
deriving DecidableEq

/-- HTTP status code of each recurring-payment-endpoint response. -/
def ApiResult.http_status : ApiResult → Nat
  | ApiResult.notFound _ => 404
  | ApiResult.badRequest _ => 400
  | ApiResult.accepted _ _ => 202

/-- `create_recurring_payment` (`app/api/v1/endpoints/emandate.py`,
lines 84-144): 404 when the mandate is missing; 400
`"Mandate is not active for payments"` unless the status is AUTHORIZED or
CONFIRMED; 400 `"Payment amount exceeds mandate limit"` when the requested
amount exceeds the mandate ceiling; otherwise enqueue the task and answer 202.
The endpoint itself writes nothing to the store. -/
def create_recurring_payment_endpoint (s : AppState) (mandate_id : Nat)
    (pd : PaymentData) : AppState × ApiResult :=
  match s.findMandate mandate_id with
  | none => (s, ApiResult.notFound "Mandate not found")
  | some m =>
      if m.status ≠ MandateStatus.authorized
          ∧ m.status ≠ MandateStatus.confirmed then
        (s, ApiResult.badRequest "Mandate is not active for payments")
      else if m.amount < pd.amount then
        (s, ApiResult.badRequest "Payment amount exceeds mandate limit")
      else
        (s, ApiResult.accepted mandate_id pd.amount)

/-- The end-to-end recurring charge: the synchronous endpoint followed — when
it accepted — by the Celery execution of the deferred task under the retry
policy. -/
def chargeRecurring (s : AppState) (mandate_id : Nat) (pd : PaymentData) :
    AppState × ApiResult × Option (FinalStatus × Nat) :=
  let (s1, r) := create_recurring_payment_endpoint s mandate_id pd
  match r with
  | ApiResult.accepted _ _ =>
      let (s2, st, n) := celery_execute (process_recurring_payment_body mandate_id pd) s1
      (s2, r, some (st, n))
  | _ => (s1, r, none)

/-- The integer `2 ^ 100`. -/
def twoPow100 : ℤ := 1267650600228229401496703205376

/-- The integer `2 ^ 152`. -/
def twoPow152 : ℤ := 5708990770823839524233143877797980545530986496

/-- Binade locator for the positive rational `n / d`: doubling `p` from 1,
returns the largest `p` (a power of two, scaled so that `p = 2 ^ (e + 100)`
for binade exponent `e`) with `p / 2 ^ 100 ≤ n / d`, for values down to
`2 ^ (-100)` and up to `2 ^ 100`. All arithmetic is on integers. -/
def binadePow : Nat → ℤ → ℤ → ℤ → ℤ
  | 0, _, _, p => p
  | fuel + 1, n, d, p =>
      if p * 2 * d ≤ n * twoPow100 then binadePow fuel n d (p * 2) else p

/-- Round the fraction `a / b` (with `b > 0`) to the nearest integer, ties to
even — the rounding step of IEEE-754 round-to-nearest-even once the value is
scaled to units in the last place. -/
def roundHalfEvenI (a b : ℤ) : ℤ :=
  let f : ℤ := a.fdiv b
  let r2 : ℤ := 2 * (a - f * b)
  if r2 < b then f
  else if b < r2 then f + 1
  else if f % 2 = 0 then f else f + 1

/-- The value of an IEEE-754 binary64 operation whose exact result is the
nonnegative rational `q`: the nearest double, ties to even, as an exact dyadic
rational. Modelled for the normal range `[2 ^ (-100), 2 ^ 100)` — amply
covering every currency amount the program handles — with 53 significant bits:
units in the last place are `2 ^ (e - 52)` on the binade `[2 ^ e, 2 ^ (e+1))`,
and with `p = 2 ^ (e + 100)` the scaled significand is
`q / 2 ^ (e - 52) = q.num * 2 ^ 152 / (q.den * p)` and the rounded value is
`m * 2 ^ (e - 52) = m * p / 2 ^ 152`. Python's `int / int`, `float * int` and
`int(float)` are all single-rounded, so each arithmetic step in the modelled
helpers is one `roundb64`. -/
def roundb64 (q : ℚ) : ℚ :=
  if q.num ≤ 0 then 0
  else
    let p := binadePow 200 q.num (q.den : ℤ) 1
    let m := roundHalfEvenI (q.num * twoPow152) ((q.den : ℤ) * p)
    Rat.divInt (m * p) twoPow152

/-- Python `int()` applied to a (here nonnegative, exactly-modelled) float:
truncation toward zero. -/
def pyInt (q : ℚ) : ℤ :=
  q.num / (q.den : ℤ)

/-- `convert_amount_from_paise` (`app/utils/helpers.py`, lines 124-126):
`amount / 100` — CPython's int-by-int true division produces the correctly
rounded binary64 of the exact quotient. -/
def convert_amount_from_paise (x : ℤ) : ℚ :=
  roundb64 (Rat.divInt x 100)

/-- `convert_amount_to_paise` (`app/utils/helpers.py`, lines 119-121):
`int(amount * 100)` — one rounded binary64 multiplication (100 is exactly
representable, and `a * 100` is exactly `a.num * 100 / a.den`), then `int()`
truncation, not `round()`. -/
def convert_amount_to_paise (a : ℚ) : ℤ :=
  pyInt (roundb64 (Rat.divInt (a.num * 100) (a.den : ℤ)))

/-- Fixture: a mandate row as the synchronous API path creates it (INR,
monthly), with the given status and gateway id. -/
def mkMandate (id cid : Nat) (amt : ℚ) (st : MandateStatus)
    (rid : Option String) : Mandate :=
  { id := id, razorpay_mandate_id := rid, customer_id := cid, amount := amt,
    currency := "INR", status := st, frequency := some "monthly" }

/-- Fixture: a payment row with the given gateway payment id and status. -/
def mkPayment (id : Nat) (rpid : Option String) (cid : Nat) (mid : Option Nat)
    (amt : ℚ) (st : PaymentStatus) : Payment :=
  { id := id, razorpay_payment_id := rpid, razorpay_order_id := none,
    customer_id := cid, mandate_id := mid, amount := amt, currency := "INR",
    status := st, transaction_type := TransactionType.recurring_payment,
    fee := none, tax := none, error_code := none, error_description := none }

/-- Fixture: a well-formed `payment.captured` webhook payload carrying the
given gateway payment id and paise-denominated fee and tax. -/
def capturedPayload (pid : String) (fee tax : Int) : WebhookPayload :=
  { event := some "payment.captured", account_id := some "acc_test",
    entity := some { id := some pid, fee := some fee, tax := some tax,
                     error_code := none, error_description := none },
    created_at := some 1234567890 }

/-- The `process_webhook_event` task body in Celery-attempt form: a normal
return is a success (no retry), the `self.retry` path is a failure. -/
def process_webhook_event_step (wid : Nat) (s : AppState) :
    AppState × AttemptOutcome :=
  match process_webhook_event s wid with
  | (s', WebhookTaskResult.retryRaised m) => (s', AttemptOutcome.failure m)
  | (s', _) => (s', AttemptOutcome.success)

/-- Scenario fixture for the double-delivered `payment.captured` webhook:
the inbound payload, entity id `pay_1`, fee 10, tax 2 (paise). -/
def c8_payload : WebhookPayload := capturedPayload "pay_1" 10 2

/-- Scenario fixture: store holding the authorized payment `pay_1` awaiting
capture. -/
def c8_s0 : AppState :=
  ⟨[], [mkPayment 1 (some "pay_1") 1 (some 1) 100 PaymentStatus.authorized], [], []⟩

/-- Scenario: store after the first delivery is accepted (webhook row stored,
task enqueued). -/
def c8_after_first : AppState := (handle_razorpay_webhook c8_s0 c8_payload true).1

/-- Scenario: store after the enqueued task applies the capture. -/
def c8_after_task : AppState := (process_webhook_event c8_after_first 1).1

/-- Scenario: store after the second delivery of the identical payload. -/
def c8_final : AppState := (handle_razorpay_webhook c8_after_task c8_payload true).1

/-- Fixture: an unprocessed `payment.captured` event whose entity id matches
no payment row. -/
def c10_row : WebhookEvent :=
  ⟨1, "pay_x", "payment.captured", capturedPayload "pay_x" 10 2, false, none⟩

/-- Fixture: a store holding only `c10_row` — its payments table is empty. -/
def c10_s : AppState := ⟨[], [], [], [c10_row]⟩

/-- Fixture: a stored, not yet processed event with event id `pay_7`. -/
def c1_row : WebhookEvent :=
  ⟨1, "pay_7", "payment.captured", capturedPayload "pay_7" 10 2, false, none⟩

/-- Fixture: a store already holding `c1_row`. -/
def c1_s : AppState := ⟨[], [], [], [c1_row]⟩

/-- Fixture: a store holding an already-processed event with row id 3. -/
def c1_s2 : AppState :=
  ⟨[], [], [], [⟨3, "evt_z", "order.paid", capturedPayload "pay_z" 0 0, true, none⟩]⟩

/-- Looking a row up by key after an ORM-style in-place update of the row with
that key yields the updated row: the shape shared by every `update*` operation
of the store. -/
theorem find?_map_update {α : Type} (idOf : α → Nat) (f : α → α)
    (hf : ∀ a, idOf (f a) = idOf a) (k : Nat) (l : List α) :
    (l.map (fun a => if idOf a == k then f a else a)).find? (fun a => idOf a == k)
      = (l.find? (fun a => idOf a == k)).map f := by
  induction l with
  | nil => rfl
  | cons x xs ih =>
    simp only [List.map_cons]
    by_cases h : idOf x = k
    · rw [if_pos (by simpa using h)]
      rw [List.find?_cons_of_pos _ (by simp [hf, h]),
        List.find?_cons_of_pos _ (by simp [h])]
      rfl
    · rw [if_neg (by simpa using h)]
      rw [List.find?_cons_of_neg _ (by simp [h]),
        List.find?_cons_of_neg _ (by simp [h])]
      exact ih

/-- A task body that returns normally on its first attempt is executed exactly
once, whatever retry budget remains. -/
theorem celery_run_of_success (step : AppState → AppState × AttemptOutcome)
    {s s1 : AppState} (hs : step s = (s1, AttemptOutcome.success)) (r : Nat) :
    celery_run step s r = (s1, FinalStatus.succeeded, 1) := by
  cases r <;> simp [celery_run, hs]

/-- A task body that raises on every attempt is executed once per unit of
retry budget plus once, and ends permanently failed. -/
theorem celery_run_of_always_fails (step : AppState → AppState × AttemptOutcome)
    (h : ∀ t, ∃ m, (step t).2 = AttemptOutcome.failure m) (r : Nat) :
    ∀ s : AppState,
      (∃ m, (celery_run step s r).2.1 = FinalStatus.permanently_failed m)
        ∧ (celery_run step s r).2.2 = r + 1 := by
  induction r with
  | zero =>
    intro s
    obtain ⟨m, hm⟩ := h s
    rcases hstep : step s with ⟨s1, o⟩
    rw [hstep] at hm
    simp only at hm
    subst hm
    exact ⟨⟨m, by simp [celery_run, hstep]⟩, by simp [celery_run, hstep]⟩
  | succ r ih =>
    intro s
    obtain ⟨m, hm⟩ := h s
    rcases hstep : step s with ⟨s1, o⟩
    rw [hstep] at hm
    simp only at hm
    subst hm
    rcases hrec : celery_run step s1 r with ⟨s2, st, n⟩
    have hih := ih s1
    rw [hrec] at hih
    simp only at hih
    refine ⟨⟨hih.1.choose, ?_⟩, ?_⟩
    · simp [celery_run, hstep, hrec]
      exact hih.1.choose_spec
    · simp [celery_run, hstep, hrec]
      exact hih.2

/-- A task body that raises without changing the store is re-executed on the
same store: it runs once per unit of retry budget plus once and ends
permanently failed. -/
theorem celery_run_of_fixed_failure (step : AppState → AppState × AttemptOutcome)
    {s : AppState} {msg : String}
    (hs : step s = (s, AttemptOutcome.failure msg)) (r : Nat) :
    celery_run step s r = (s, FinalStatus.permanently_failed msg, r + 1) := by
  induction r with
  | zero => simp [celery_run, hs]
  | succ r ih => simp [celery_run, hs, ih]

/-- C2 counterexample: a mandate in the terminal state Cancelled, with its
gateway id set, is moved by `validate_mandate_status` to Confirmed — the
transition is applied, not rejected, although Cancelled→Confirmed is not a
lifecycle edge and the claim requires the state to be left unchanged with an
InvalidTransition report. -/
theorem C2_counterexample :
    ((validate_mandate_status_body 1
        ⟨[mkMandate 1 1 1000 MandateStatus.cancelled (some "mandate_mock_1")],
          [], [], []⟩).1.findMandate 1).map (fun m => m.status)
      = some MandateStatus.confirmed := by
  decide

/-- C2 (amended): the code applies transitions unconditionally, with no
source-state guard and no InvalidTransition report: `validate_mandate_status`
sets any mandate whose gateway id is present to Confirmed regardless of its
current status, and `process_payment_captured` sets any payment matched by the
entity id to Captured regardless of its current status. -/
theorem C2_transitions_unguarded :
    (∀ (s : AppState) (mid : Nat) (m : Mandate),
        s.findMandate mid = some m → m.razorpay_mandate_id.isSome = true →
        ((validate_mandate_status_body mid s).1.findMandate mid).map (fun x => x.status)
          = some MandateStatus.confirmed)
    ∧ (∀ (s : AppState) (pl : WebhookPayload) (ent : Entity) (pid : String) (p : Payment),
        pl.entity = some ent → ent.id = some pid → pid ≠ "" →
        s.findPaymentByRzpId pid = some p →
        ∃ q, q ∈ (process_payment_captured s pl).payments ∧ q.id = p.id
          ∧ q.status = PaymentStatus.captured) := by
  constructor
  · intro s mid m hfind hsome
    have hres : (validate_mandate_status_body mid s).1
        = s.updateMandate mid (fun x => { x with status := MandateStatus.confirmed }) := by
      unfold validate_mandate_status_body
      rw [hfind]
      simp [hsome]
    have hfind' : s.mandates.find? (fun x => x.id == mid) = some m := hfind
    rw [hres]
    show ((s.mandates.map (fun x =>
        if x.id == mid then { x with status := MandateStatus.confirmed } else x)).find?
          (fun x => x.id == mid)).map (fun x => x.status) = some MandateStatus.confirmed
    rw [find?_map_update Mandate.id
      (fun x => { x with status := MandateStatus.confirmed }) (fun a => rfl) mid, hfind']
    rfl
  · intro s pl ent pid p hent hid hne hfind
    have hmem : p ∈ s.payments := List.mem_of_find?_eq_some hfind
    have hres : process_payment_captured s pl
        = s.updatePayment p.id (fun q =>
            { q with status := PaymentStatus.captured,
                     fee := some (Rat.divInt (ent.fee.getD 0) 100),
                     tax := some (Rat.divInt (ent.tax.getD 0) 100) }) := by
      simp only [process_payment_captured, hent, Option.getD_some, hid, if_neg hne, hfind]
    rw [hres]
    refine ⟨{ p with
        status := PaymentStatus.captured,
        fee := some (Rat.divInt (ent.fee.getD 0) 100),
        tax := some (Rat.divInt (ent.tax.getD 0) 100) }, ?_, rfl, rfl⟩
    refine List.mem_map.mpr ⟨p, hmem, ?_⟩
    simp

/-- C2 witness: the amended transition behaviour at a concrete Expired mandate
and a concrete Refunded payment. -/
theorem C2_transitions_unguarded_witness :
    ((validate_mandate_status_body 7
        ⟨[mkMandate 7 1 250 MandateStatus.expired (some "mandate_mock_7")],
          [], [], []⟩).1.findMandate 7).map (fun x => x.status)
        = some MandateStatus.confirmed
    ∧ ∃ q, q ∈ (process_payment_captured
          ⟨[], [mkPayment 3 (some "pay_9") 1 none 50 PaymentStatus.refunded], [], []⟩
          (capturedPayload "pay_9" 10 2)).payments
        ∧ q.id = 3 ∧ q.status = PaymentStatus.captured := by
  constructor
  · exact C2_transitions_unguarded.1
      ⟨[mkMandate 7 1 250 MandateStatus.expired (some "mandate_mock_7")], [], [], []⟩
      7 (mkMandate 7 1 250 MandateStatus.expired (some "mandate_mock_7"))
      (by decide) (by decide)
  · have h := C2_transitions_unguarded.2
      ⟨[], [mkPayment 3 (some "pay_9") 1 none 50 PaymentStatus.refunded], [], []⟩
      (capturedPayload "pay_9" 10 2)
      ⟨some "pay_9", some 10, some 2, none, none⟩ "pay_9"
      (mkPayment 3 (some "pay_9") 1 none 50 PaymentStatus.refunded)
      rfl rfl (by decide) (by decide)
    obtain ⟨q, hq, hid, hst⟩ := h
    exact ⟨q, hq, by rw [hid]; rfl, hst⟩

/-- C4 counterexample: an unprocessed WebhookEvent whose apply raises is
marked `processed = true` (with the error recorded) by the exception handler —
the claim requires `processed` to stay false. -/
theorem C4_counterexample :
    (((process_webhook_event_on_exception
          ⟨[], [], [],
            [⟨1, "pay_1", "payment.captured", capturedPayload "pay_1" 10 2,
              false, none⟩]⟩ 1 "boom")).findWebhook 1).map
        (fun w => (w.processed, w.processing_error))
      = some (true, some "boom") := by
  decide

/-- C4 (amended): on any exception during the deferred apply the handler
records `processing_error` but also sets `processed = true`, so the event is
terminally consumed: any later run of the task for that row short-circuits as
already processed instead of reapplying — the event never remains
`processed = false`, and error-marked events are not retried effectively. -/
theorem C4_exception_marks_processed :
    ∀ (s : AppState) (wid : Nat) (w : WebhookEvent) (err : String),
      s.findWebhook wid = some w →
      (((process_webhook_event_on_exception s wid err).findWebhook wid).map
          (fun x => (x.processed, x.processing_error)) = some (true, some err))
      ∧ process_webhook_event (process_webhook_event_on_exception s wid err) wid
          = (process_webhook_event_on_exception s wid err,
              WebhookTaskResult.alreadyProcessed) := by
  intro s wid w err hfind
  have hfind' : s.webhooks.find? (fun x => x.id == wid) = some w := hfind
  have hres : process_webhook_event_on_exception s wid err
      = s.updateWebhook wid
          (fun x => { x with processed := true, processing_error := some err }) := by
    unfold process_webhook_event_on_exception mark_webhook_processed
    rw [hfind]
  have hfind2 : (process_webhook_event_on_exception s wid err).findWebhook wid
      = some { w with processed := true, processing_error := some err } := by
    rw [hres]
    show ((s.webhooks.map (fun x =>
        if x.id == wid then { x with processed := true, processing_error := some err }
        else x)).find? (fun x => x.id == wid))
      = some { w with processed := true, processing_error := some err }
    rw [find?_map_update WebhookEvent.id
      (fun x => { x with processed := true, processing_error := some err })
      (fun a => rfl) wid, hfind']
    rfl
  refine ⟨by rw [hfind2]; rfl, ?_⟩
  unfold process_webhook_event
  rw [hfind2]
  rfl

/-- C4 witness: the amended behaviour at a concrete unprocessed event. -/
theorem C4_exception_marks_processed_witness :
    (((process_webhook_event_on_exception
          ⟨[], [], [],
            [⟨2, "evt_a", "payment.failed", capturedPayload "pay_a" 0 0,
              false, none⟩]⟩ 2 "gateway down")).findWebhook 2).map
        (fun x => (x.processed, x.processing_error))
      = some (true, some "gateway down") := by
  exact (C4_exception_marks_processed
    ⟨[], [], [],
      [⟨2, "evt_a", "payment.failed", capturedPayload "pay_a" 0 0, false, none⟩]⟩
    2 ⟨2, "evt_a", "payment.failed", capturedPayload "pay_a" 0 0, false, none⟩
    "gateway down" (by decide)).1

/-- C5 counterexample: with the order commit succeeding and the mandate commit
failing, a failed Authorize Mandate task leaves an observable store holding
one committed Order while the Mandate is still `Created` — the partial state
the claim says is impossible. -/
theorem C5_counterexample :
    ((process_emandate_authorization_body ⟨true, false⟩ 1
        ⟨500, "INR", some "emandate_auth_1", some 1⟩
        ⟨[mkMandate 1 1 500 MandateStatus.created none], [], [], []⟩).1.orders.length = 1)
    ∧ (((process_emandate_authorization_body ⟨true, false⟩ 1
        ⟨500, "INR", some "emandate_auth_1", some 1⟩
        ⟨[mkMandate 1 1 500 MandateStatus.created none], [], [], []⟩).1.findMandate 1).map
          (fun m => m.status) = some MandateStatus.created)
    ∧ (process_emandate_authorization_body ⟨true, false⟩ 1
        ⟨500, "INR", some "emandate_auth_1", some 1⟩
        ⟨[mkMandate 1 1 500 MandateStatus.created none], [], [], []⟩).2
        = AttemptOutcome.failure "mandate commit failed" := by
  refine ⟨?_, ?_, ?_⟩ <;> decide

/-- C5 (amended): an Authorize Mandate task execution spans two transactions,
not one: `create_order` commits the Order on its own, and a failure at the
later mandate-update commit leaves that Order durably in the store while the
Mandate keeps its prior row — the task is not atomic. -/
theorem C5_not_atomic :
    ∀ (s : AppState) (mid : Nat) (od : OrderData) (m : Mandate),
      s.findMandate mid = some m →
      process_emandate_authorization_body ⟨true, false⟩ mid od s
        = ({ s with orders := s.orders ++ [(create_order_db s od).2] },
            AttemptOutcome.failure "mandate commit failed")
      ∧ (process_emandate_authorization_body ⟨true, false⟩ mid od s).1.mandates
          = s.mandates := by
  intro s mid od m hfind
  have hres : process_emandate_authorization_body ⟨true, false⟩ mid od s
      = ({ s with orders := s.orders ++ [(create_order_db s od).2] },
          AttemptOutcome.failure "mandate commit failed") := by
    unfold process_emandate_authorization_body
    rw [hfind]
    simp [create_order_db]
  exact ⟨hres, by rw [hres]⟩

/-- C5 witness: the partial state at a concrete created mandate. -/
theorem C5_not_atomic_witness :
    process_emandate_authorization_body ⟨true, false⟩ 4
        ⟨750, "INR", some "emandate_auth_4", some 2⟩
        ⟨[mkMandate 4 2 750 MandateStatus.created none], [], [], []⟩
      = ({ mandates := [mkMandate 4 2 750 MandateStatus.created none],
           payments := [],
           orders := [(create_order_db
              ⟨[mkMandate 4 2 750 MandateStatus.created none], [], [], []⟩
              ⟨750, "INR", some "emandate_auth_4", some 2⟩).2],
           webhooks := [] },
          AttemptOutcome.failure "mandate commit failed") := by
  exact (C5_not_atomic
    ⟨[mkMandate 4 2 750 MandateStatus.created none], [], [], []⟩ 4
    ⟨750, "INR", some "emandate_auth_4", some 2⟩
    (mkMandate 4 2 750 MandateStatus.created none) (by decide)).1

/-- C9: evaluating the paise conversion at the failing input 29: the binary64
value of `29 / 100` multiplied by 100 falls just below 29 and `int()`
truncates it to 28 — the round-trip `toMinorUnits (fromMinorUnits 29)` is not
the identity and the code truncates instead of rounding. -/
theorem C9_roundtrip_fails_at_29 :
    convert_amount_to_paise (convert_amount_from_paise 29) = 28 := by
  decide

/-- C3 counterexample: a task failing with the validation error
`Mandate not found` — which the claim says bypasses retry and fails on the
first attempt — is executed 4 times (the initial attempt plus the 3 retries of
the uniform policy) before being marked permanently failed. -/
theorem C3_counterexample :
    (celery_execute (process_emandate_authorization_body ⟨true, true⟩ 1
        ⟨500, "INR", some "emandate_auth_1", some 1⟩) AppState.empty).2
      = (FinalStatus.permanently_failed "Mandate not found", 4) := by
  decide

/-- C3 (amended): the `except Exception` branch of each task retries every
failure uniformly — validation errors included, with no bypass — so any body
that keeps raising is attempted exactly `celery_max_retries + 1 = 4` times and
then marked permanently failed; the configured policy is 3 retries with
countdown 60. -/
theorem C3_uniform_retry :
    (∀ (step : AppState → AppState × AttemptOutcome) (s : AppState),
        (∀ t, ∃ m, (step t).2 = AttemptOutcome.failure m) →
        (∃ m, (celery_execute step s).2.1 = FinalStatus.permanently_failed m)
          ∧ (celery_execute step s).2.2 = 4)
    ∧ celery_max_retries = 3 ∧ celery_retry_countdown = 60 := by
  refine ⟨?_, rfl, rfl⟩
  intro step s h
  have hrun := celery_run_of_always_fails step h celery_max_retries s
  exact ⟨hrun.1, hrun.2⟩

/-- C3 witness: a task body that always raises — the mandate lookup fails or
the order commit fails on every attempt — is attempted 4 times and ends
permanently failed. -/
theorem C3_uniform_retry_witness :
    (∃ m, (celery_execute (process_emandate_authorization_body ⟨false, true⟩ 5
        ⟨100, "INR", none, none⟩) AppState.empty).2.1
          = FinalStatus.permanently_failed m)
    ∧ (celery_execute (process_emandate_authorization_body ⟨false, true⟩ 5
        ⟨100, "INR", none, none⟩) AppState.empty).2.2 = 4 := by
  refine C3_uniform_retry.1 _ AppState.empty ?_
  intro t
  cases h : t.findMandate 5 with
  | none =>
      exact ⟨"Mandate not found", by simp [process_emandate_authorization_body, h]⟩
  | some m =>
      exact ⟨"order commit failed", by simp [process_emandate_authorization_body, h]⟩

/-- C7: a recurring-payment request against a mandate that is still Created
(or whose amount exceeds the mandate ceiling) is answered with HTTP 400 and
the store is unchanged: no Order row, no Payment row, and no task is
enqueued. -/
theorem C7_reject_before_rows :
    ∀ (s : AppState) (mid : Nat) (pd : PaymentData) (m : Mandate),
      s.findMandate mid = some m →
      (m.status = MandateStatus.created ∨ m.amount < pd.amount) →
      ∃ msg, chargeRecurring s mid pd = (s, ApiResult.badRequest msg, none)
        ∧ (ApiResult.badRequest msg).http_status = 400 := by
  intro s mid pd m hfind hbad
  have hep : ∃ msg,
      create_recurring_payment_endpoint s mid pd = (s, ApiResult.badRequest msg) := by
    rcases hbad with hc | hlt
    · have h1 : m.status ≠ MandateStatus.authorized := by rw [hc]; decide
      have h2 : m.status ≠ MandateStatus.confirmed := by rw [hc]; decide
      exact ⟨"Mandate is not active for payments",
        by simp [create_recurring_payment_endpoint, hfind, h1, h2]⟩
    · by_cases hact : m.status ≠ MandateStatus.authorized
          ∧ m.status ≠ MandateStatus.confirmed
      · exact ⟨"Mandate is not active for payments",
          by simp [create_recurring_payment_endpoint, hfind, hact.1, hact.2]⟩
      · exact ⟨"Payment amount exceeds mandate limit",
          by simp [create_recurring_payment_endpoint, hfind, hact, hlt]⟩
  obtain ⟨msg, hep⟩ := hep
  refine ⟨msg, ?_, rfl⟩
  simp [chargeRecurring, hep]

/-- C7 witness: a concrete Created mandate rejects a small request with 400
and an untouched store. -/
theorem C7_reject_before_rows_witness :
    ∃ msg, chargeRecurring
        ⟨[mkMandate 9 1 100 MandateStatus.created none], [], [], []⟩ 9
        ⟨50, none, none, none⟩
      = (⟨[mkMandate 9 1 100 MandateStatus.created none], [], [], []⟩,
          ApiResult.badRequest msg, none)
      ∧ (ApiResult.badRequest msg).http_status = 400 := by
  exact C7_reject_before_rows _ 9 _ (mkMandate 9 1 100 MandateStatus.created none)
    (by decide) (Or.inl rfl)

/-- Each payment-event handler leaves the store untouched when the entity id
is absent or falsy or when no payment row carries that gateway id. -/
theorem apply_no_match (s : AppState) (pl : WebhookPayload) (et : String)
    (het : et = "payment.authorized" ∨ et = "payment.captured"
      ∨ et = "payment.failed")
    (hent : (pl.entity.getD Entity.empty).id = none
      ∨ ∃ pid, (pl.entity.getD Entity.empty).id = some pid
          ∧ (pid = "" ∨ s.findPaymentByRzpId pid = none)) :
    applyWebhookEvent s et pl = s := by
  have hauth : process_payment_authorized s pl = s := by
    rcases hent with h | ⟨pid, h, hcase⟩
    · simp [process_payment_authorized, h]
    · by_cases hpe : pid = ""
      · simp [process_payment_authorized, h, hpe]
      · rcases hcase with he | hn
        · exact absurd he hpe
        · simp [process_payment_authorized, h, hpe, hn]
  have hcap : process_payment_captured s pl = s := by
    rcases hent with h | ⟨pid, h, hcase⟩
    · simp [process_payment_captured, h]
    · by_cases hpe : pid = ""
      · simp [process_payment_captured, h, hpe]
      · rcases hcase with he | hn
        · exact absurd he hpe
        · simp [process_payment_captured, h, hpe, hn]
  have hfail : process_payment_failed s pl = s := by
    rcases hent with h | ⟨pid, h, hcase⟩
    · simp [process_payment_failed, h]
    · by_cases hpe : pid = ""
      · simp [process_payment_failed, h, hpe]
      · rcases hcase with he | hn
        · exact absurd he hpe
        · simp [process_payment_failed, h, hpe, hn]
  rcases het with h | h | h <;> subst h
  · simp [applyWebhookEvent, hauth]
  · simp [applyWebhookEvent, hcap]
  · simp [applyWebhookEvent, hfail]

/-- C10: a `payment.authorized`, `payment.captured` or `payment.failed` event
whose entity id is absent (or falsy) or matches no Payment row is applied
without mutating any Payment, Mandate or Order, raises nothing, and is still
finalized `processed = true` with no `processing_error`; the task returns
normally, so the Celery runner executes it exactly once — the event is
permanently consumed without effect and never reattempted. -/
theorem C10_unmatched_event_consumed :
    ∀ (s : AppState) (wid : Nat) (w : WebhookEvent),
      s.findWebhook wid = some w → w.processed = false →
      (w.event_type = "payment.authorized" ∨ w.event_type = "payment.captured"
        ∨ w.event_type = "payment.failed") →
      ((w.payload.entity.getD Entity.empty).id = none
        ∨ ∃ pid, (w.payload.entity.getD Entity.empty).id = some pid
            ∧ (pid = "" ∨ s.findPaymentByRzpId pid = none)) →
      ∃ s', process_webhook_event s wid = (s', WebhookTaskResult.processedOk w.event_type)
        ∧ s'.payments = s.payments ∧ s'.mandates = s.mandates ∧ s'.orders = s.orders
        ∧ (s'.findWebhook wid).map (fun x => (x.processed, x.processing_error))
            = some (true, none)
        ∧ (celery_execute (process_webhook_event_step wid) s).2.2 = 1 := by
  intro s wid w hfind hproc het hent
  have happly : applyWebhookEvent s w.event_type w.payload = s :=
    apply_no_match s w.payload w.event_type het hent
  have hfind' : s.webhooks.find? (fun x => x.id == wid) = some w := hfind
  have hrun : process_webhook_event s wid
      = (s.updateWebhook wid
          (fun x => { x with processed := true, processing_error := none }),
          WebhookTaskResult.processedOk w.event_type) := by
    simp [process_webhook_event, hfind, hproc, happly, mark_webhook_processed]
  refine ⟨s.updateWebhook wid
      (fun x => { x with processed := true, processing_error := none }),
    hrun, rfl, rfl, rfl, ?_, ?_⟩
  · show ((s.webhooks.map (fun x =>
        if x.id == wid then { x with processed := true, processing_error := none }
        else x)).find? (fun x => x.id == wid)).map
          (fun x => (x.processed, x.processing_error)) = some (true, none)
    rw [find?_map_update WebhookEvent.id
      (fun x => { x with processed := true, processing_error := none })
      (fun a => rfl) wid, hfind']
    rfl
  · have hstep : process_webhook_event_step wid s
        = (s.updateWebhook wid
            (fun x => { x with processed := true, processing_error := none }),
            AttemptOutcome.success) := by
      unfold process_webhook_event_step
      rw [hrun]
    unfold celery_execute
    rw [celery_run_of_success _ hstep]

/-- C10 witness: the consumed-without-effect behaviour at a concrete
`payment.captured` event whose entity id matches an empty payments table. -/
theorem C10_unmatched_event_consumed_witness :
    ∃ s', process_webhook_event c10_s 1 = (s', WebhookTaskResult.processedOk "payment.captured")
      ∧ s'.payments = c10_s.payments ∧ s'.mandates = c10_s.mandates
      ∧ s'.orders = c10_s.orders
      ∧ (s'.findWebhook 1).map (fun x => (x.processed, x.processing_error))
          = some (true, none)
      ∧ (celery_execute (process_webhook_event_step 1) c10_s).2.2 = 1 := by
  exact C10_unmatched_event_consumed c10_s 1 c10_row (by decide) rfl
    (Or.inr (Or.inl rfl)) (Or.inr ⟨"pay_x", rfl, Or.inr rfl⟩)

/-- C1 counterexample: the identical well-formed payload delivered twice gets
one accepted acknowledgement and then a 500 error envelope — not N accepted
acknowledgements: the handler performs no WebhookEvent lookup, and the second
insert trips the UNIQUE `event_id` constraint. -/
theorem C1_counterexample :
    (handle_razorpay_webhook AppState.empty (capturedPayload "evt_1" 10 2) true).2
        = WebhookResponse.accepted "evt_1" 1
    ∧ (handle_razorpay_webhook
          (handle_razorpay_webhook AppState.empty (capturedPayload "evt_1" 10 2) true).1
          (capturedPayload "evt_1" 10 2) true).2
        = WebhookResponse.serverError "Failed to process webhook" := by
  constructor <;> decide

/-- C1 (amended): idempotence is enforced in two places, neither of which is a
lookup in the handler: redelivering a payload whose derived event id is
already stored makes the handler answer 500 with the store unchanged (the
UNIQUE constraint rejects the duplicate row, so no second task is enqueued),
and the deferred task short-circuits with `already_processed`, reapplying
nothing, whenever the row is `processed = true`. So N>1 deliveries produce one
state transition, one accepted acknowledgement and N-1 error envelopes. -/
theorem C1_dedup_boundary :
    (∀ (s : AppState) (p : WebhookPayload) (w : WebhookEvent),
        p.event.isSome = true → p.account_id.isSome = true →
        p.entity.isSome = true →
        w ∈ s.webhooks → w.event_id = derive_event_id p →
        handle_razorpay_webhook s p true
          = (s, WebhookResponse.serverError "Failed to process webhook"))
    ∧ (∀ (s : AppState) (wid : Nat) (w : WebhookEvent),
        s.findWebhook wid = some w → w.processed = true →
        process_webhook_event s wid = (s, WebhookTaskResult.alreadyProcessed)) := by
  constructor
  · intro s p w he ha hent hw heid
    have hany : s.webhooks.any (fun x => x.event_id == derive_event_id p) = true :=
      List.any_eq_true.mpr ⟨w, hw, by simp [heid]⟩
    simp [handle_razorpay_webhook, he, ha, hent, hany]
  · intro s wid w hfind hproc
    simp [process_webhook_event, hfind, hproc]

/-- C1 witness: the two dedup behaviours at a concrete stored event id and a
concrete processed row. -/
theorem C1_dedup_boundary_witness :
    handle_razorpay_webhook c1_s (capturedPayload "pay_7" 10 2) true
        = (c1_s, WebhookResponse.serverError "Failed to process webhook")
    ∧ process_webhook_event c1_s2 3 = (c1_s2, WebhookTaskResult.alreadyProcessed) := by
  constructor
  · exact C1_dedup_boundary.1 c1_s (capturedPayload "pay_7" 10 2) c1_row
      rfl rfl rfl (by decide) rfl
  · exact C1_dedup_boundary.2 c1_s2 3
      ⟨3, "evt_z", "order.paid", capturedPayload "pay_z" 0 0, true, none⟩
      (by decide) rfl

/-- C6 counterexample: an Authorized mandate with a request amount inside the
ceiling — which the claim says makes `chargeRecurring` legal and complete with
a payment — is accepted by the endpoint, but the deferred task then fails
permanently with `Mandate is not confirmed` after the 4 uniform attempts, and
no Payment row is ever created. -/
theorem C6_counterexample :
    (chargeRecurring
        ⟨[mkMandate 1 1 1000 MandateStatus.authorized (some "mandate_mock_1")],
          [], [], []⟩ 1 ⟨500, none, none, none⟩).2
      = (ApiResult.accepted 1 500,
          some (FinalStatus.permanently_failed "Mandate is not confirmed", 4))
    ∧ (chargeRecurring
        ⟨[mkMandate 1 1 1000 MandateStatus.authorized (some "mandate_mock_1")],
          [], [], []⟩ 1 ⟨500, none, none, none⟩).1.payments = [] := by
  constructor <;> decide

/-- C6 (amended): the endpoint accepts when the mandate is Authorized or
Confirmed and the amount is within the ceiling, rejecting an excessive amount
with 400 `Payment amount exceeds mandate limit`; but the deferred task demands
Confirmed, so the end-to-end charge completes with a captured Payment exactly
for Confirmed mandates, while an Authorized mandate is accepted and then fails
permanently with `Mandate is not confirmed`, producing no Payment. -/
theorem C6_charge_legality :
    (∀ (s : AppState) (mid : Nat) (pd : PaymentData) (m : Mandate),
        s.findMandate mid = some m → m.status = MandateStatus.confirmed →
        pd.amount ≤ m.amount →
        ∃ s1, chargeRecurring s mid pd
            = (s1, ApiResult.accepted mid pd.amount, some (FinalStatus.succeeded, 1))
          ∧ ∃ q, q ∈ s1.payments ∧ q.status = PaymentStatus.captured
              ∧ q.amount = pd.amount ∧ q.mandate_id = some mid)
    ∧ (∀ (s : AppState) (mid : Nat) (pd : PaymentData) (m : Mandate),
        s.findMandate mid = some m → m.status = MandateStatus.authorized →
        pd.amount ≤ m.amount →
        chargeRecurring s mid pd
          = (s, ApiResult.accepted mid pd.amount,
              some (FinalStatus.permanently_failed "Mandate is not confirmed", 4)))
    ∧ (∀ (s : AppState) (mid : Nat) (pd : PaymentData) (m : Mandate),
        s.findMandate mid = some m →
        (m.status = MandateStatus.authorized ∨ m.status = MandateStatus.confirmed) →
        m.amount < pd.amount →
        chargeRecurring s mid pd
          = (s, ApiResult.badRequest "Payment amount exceeds mandate limit", none)) := by
  refine ⟨?_, ?_, ?_⟩
  · intro s mid pd m hfind hconf hle
    have h2 : ¬m.status ≠ MandateStatus.confirmed := fun h => h hconf
    have hep : create_recurring_payment_endpoint s mid pd
        = (s, ApiResult.accepted mid pd.amount) := by
      simp [create_recurring_payment_endpoint, hfind, hconf, not_lt.mpr hle]
    have hbody : ∃ s1, process_recurring_payment_body mid pd s
        = (s1, AttemptOutcome.success)
        ∧ ∃ q, q ∈ s1.payments ∧ q.status = PaymentStatus.captured
            ∧ q.amount = pd.amount ∧ q.mandate_id = some mid := by
      unfold process_recurring_payment_body
      rw [hfind]
      show ∃ s1, (if m.status ≠ MandateStatus.confirmed then _ else _)
          = (s1, AttemptOutcome.success) ∧ _
      rw [if_neg h2]
      refine ⟨_, rfl, ?_⟩
      exact ⟨_, List.mem_append_right _ (List.mem_singleton_self _), rfl, rfl, rfl⟩
    obtain ⟨s1, hbody, q, hq, hqs, hqa, hqm⟩ := hbody
    have hrun : celery_execute (process_recurring_payment_body mid pd) s
        = (s1, FinalStatus.succeeded, 1) := by
      unfold celery_execute
      exact celery_run_of_success _ hbody _
    refine ⟨s1, ?_, q, hq, hqs, hqa, hqm⟩
    simp [chargeRecurring, hep, hrun]
  · intro s mid pd m hfind hauth hle
    have hep : create_recurring_payment_endpoint s mid pd
        = (s, ApiResult.accepted mid pd.amount) := by
      simp [create_recurring_payment_endpoint, hfind, hauth, not_lt.mpr hle]
    have hstep : process_recurring_payment_body mid pd s
        = (s, AttemptOutcome.failure "Mandate is not confirmed") := by
      have hne : m.status ≠ MandateStatus.confirmed := by rw [hauth]; decide
      simp [process_recurring_payment_body, hfind, hne]
    have hrun : celery_execute (process_recurring_payment_body mid pd) s
        = (s, FinalStatus.permanently_failed "Mandate is not confirmed", 4) := by
      unfold celery_execute
      exact celery_run_of_fixed_failure _ hstep _
    simp [chargeRecurring, hep, hrun]
  · intro s mid pd m hfind hact hlt
    have hep : create_recurring_payment_endpoint s mid pd
        = (s, ApiResult.badRequest "Payment amount exceeds mandate limit") := by
      rcases hact with h | h <;>
        simp [create_recurring_payment_endpoint, hfind, h, hlt]
    simp [chargeRecurring, hep]

/-- C6 witness: a Confirmed mandate completes with a captured payment; an
Authorized one is accepted then fails without one; an excessive amount is
rejected with the limit message. -/
theorem C6_charge_legality_witness :
    (∃ s1, chargeRecurring
          ⟨[mkMandate 2 1 1000 MandateStatus.confirmed (some "mandate_mock_2")],
            [], [], []⟩ 2 ⟨400, none, none, none⟩
        = (s1, ApiResult.accepted 2 400, some (FinalStatus.succeeded, 1))
      ∧ ∃ q, q ∈ s1.payments ∧ q.status = PaymentStatus.captured
          ∧ q.amount = 400 ∧ q.mandate_id = some 2)
    ∧ chargeRecurring
          ⟨[mkMandate 3 1 1000 MandateStatus.authorized (some "mandate_mock_3")],
            [], [], []⟩ 3 ⟨400, none, none, none⟩
        = (⟨[mkMandate 3 1 1000 MandateStatus.authorized (some "mandate_mock_3")],
            [], [], []⟩, ApiResult.accepted 3 400,
            some (FinalStatus.permanently_failed "Mandate is not confirmed", 4))
    ∧ chargeRecurring
          ⟨[mkMandate 6 1 1000 MandateStatus.confirmed (some "mandate_mock_6")],
            [], [], []⟩ 6 ⟨2000, none, none, none⟩
        = (⟨[mkMandate 6 1 1000 MandateStatus.confirmed (some "mandate_mock_6")],
            [], [], []⟩,
            ApiResult.badRequest "Payment amount exceeds mandate limit", none) := by
  refine ⟨?_, ?_, ?_⟩
  · exact C6_charge_legality.1 _ 2 _
      (mkMandate 2 1 1000 MandateStatus.confirmed (some "mandate_mock_2"))
      (by decide) rfl (by decide)
  · exact C6_charge_legality.2.1 _ 3 _
      (mkMandate 3 1 1000 MandateStatus.authorized (some "mandate_mock_3"))
      (by decide) rfl (by decide)
  · exact C6_charge_legality.2.2 _ 6 _
      (mkMandate 6 1 1000 MandateStatus.confirmed (some "mandate_mock_6"))
      (by decide) (Or.inr rfl) (by decide)

/-- C8 counterexample: after the scenario runs — `payment.captured` with
entity fee 10 and tax 2 delivered twice — the Payment's recorded fee is
`10 / 100 = 0.10` rupees, not the 10.00 the claim states: the handler divides
the paise values by 100. -/
theorem C8_counterexample :
    ((c8_final.payments.find? (fun q => q.id == 1)).map (fun q => q.fee)
        = some (some (mkRat 1 10)))
    ∧ mkRat 1 10 ≠ (10 : ℚ) := by
  constructor <;> decide

/-- C8 (amended): the double-delivered `payment.captured` webhook with entity
fee 10 and tax 2 (paise) leaves the matching Payment Captured with fee 0.10
and tax 0.02, the second delivery is rejected with the 500 duplicate envelope,
and exactly one WebhookEvent row exists for the event id and it is processed. -/
theorem C8_captured_scenario :
    ((c8_final.payments.find? (fun q => q.id == 1)).map
        (fun q => (q.status, q.fee, q.tax))
      = some (PaymentStatus.captured, some (mkRat 1 10), some (mkRat 1 50)))
    ∧ (handle_razorpay_webhook c8_after_task c8_payload true).2
        = WebhookResponse.serverError "Failed to process webhook"
    ∧ (c8_final.webhooks.filter (fun w => w.event_id == "pay_1" && w.processed)).length = 1
    ∧ c8_final.webhooks.length = 1 := by
  refine ⟨?_, ?_, ?_, ?_⟩ <;> decide

end RPM
